import Mathlib

/-!
# Verification of the dmptool narrative generator

A shallow embedding of the core of the `dmptool-narrative-generator` service:
the polymorphic answer model and its "answered" determination
(`src/html.ts`), the HTML question/answer display helper (`src/html.ts`),
the CSV renderer (`src/csv.ts`), the related-works grouping helpers
(`src/html.ts`), the permission gate (`src/dataAccess.ts`), and the
freshness-reconciliation protocol of the narrative route handler
(`src/server.ts` together with `handleMissingMaDMP` / `persistMaDMPRecord`
of `src/dataAccess.ts`).

JavaScript conventions used throughout the embedding:
* a field that may be `undefined` is an `Option`;
* fallible property accesses (`x.f` where `x` may be `undefined`, which
  throws `TypeError` in JavaScript) are modelled with `Except JsError`;
* string template interpolation of a possibly-`undefined` value produces
  the literal text `"undefined"` (`jsInterp`), while Handlebars renders a
  missing value as the empty string (`hbVal`);
* external library calls with no influence on control flow (date
  formatting via the JavaScript `Date` object, `Number.toLocaleString`,
  the `pluralize` npm package, `JSON.stringify`) are threaded through the
  definitions as an explicit record of functions (`ExtFns`), so every
  theorem holds for every behaviour of those libraries unless it
  instantiates them.
-/

namespace NarrativeGen

/-- A thrown JavaScript `TypeError` (property access on `undefined`,
or calling a method that does not exist on the receiver). -/
inductive JsError : Type where
  | typeError
  deriving Repr, DecidableEq

/-- JS string interpolation of a possibly-undefined string:
`` `${x}` `` produces the text `undefined` when `x` is `undefined`. -/
def jsInterp : Option String → String
  | some s => s
  | none => "undefined"

/-- Handlebars `{{x}}` / helper-argument rendering of a missing value:
the empty string. -/
def hbVal : Option String → String
  | some s => s
  | none => ""

/-- JavaScript `String.prototype.trim`: strip whitespace from both ends
(structurally recursive so that concrete instances evaluate). -/
def jsTrim (s : String) : String :=
  String.mk (((s.data.dropWhile Char.isWhitespace).reverse.dropWhile
    Char.isWhitespace).reverse)

/-- JS truthiness of a possibly-undefined string (`undefined` and `""` are
falsy). -/
def strTruthy : Option String → Bool
  | some s => s ≠ ""
  | none => false

mutual

/-- The payload carried in the `answer` field of an answer JSON object
(`AnyAnswerType` of `@dmptool/types`), as the code of `src/html.ts` /
`src/csv.ts` observes it: a string, a number, a boolean, an array of
strings (check-box / multi-select options), a range object with optional
`start`/`end` bounds (stored in their template-interpolation form), an
affiliation object with optional `affiliationId` / `affiliationName`, or
a table: a list of rows, each row an object with a `columns` array of
nested answer objects. -/
inductive Payload : Type where
  | str : String → Payload
  | num : Int → Payload
  | pbool : Bool → Payload
  | parr : List String → Payload
  | range : Option String → Option String → Payload
  | affiliation : Option String → Option String → Payload
  | table : List TableRow → Payload

/-- One row of a table answer: the object's `columns` field. -/
inductive TableRow : Type where
  | mk : List AnswerJson → TableRow

/-- An answer JSON object: the `type` tag (may be missing), the `answer`
payload (may be missing — the question is unanswered), and for tables
the optional `columnHeadings`. -/
inductive AnswerJson : Type where
  | mk : Option String → Option Payload → Option (List String) → AnswerJson

end

namespace AnswerJson

/-- The `type` field of the answer object. -/
def type : AnswerJson → Option String
  | .mk t _ _ => t

/-- The `answer` field of the answer object. -/
def answer : AnswerJson → Option Payload
  | .mk _ a _ => a

/-- The `columnHeadings` field of the answer object. -/
def columnHeadings : AnswerJson → Option (List String)
  | .mk _ _ c => c

end AnswerJson

/-- JS truthiness of an answer payload (`json?.answer ||` in
`answerToHTML`): `0`, `false` and `""` are falsy; objects and arrays are
always truthy. -/
def payloadTruthy : Payload → Bool
  | .str s => s ≠ ""
  | .num n => n ≠ 0
  | .pbool b => b
  | .parr _ => true
  | .range _ _ => true
  | .affiliation _ _ => true
  | .table _ => true

/-- JavaScript `String(x)` / `x.toString()` on an answer payload: numbers
and booleans print canonically, arrays join their elements with commas,
and plain objects print as `[object Object]` (a table payload is an array
of row objects, so it prints as comma-joined `[object Object]` entries). -/
def jsToString : Payload → String
  | .str s => s
  | .num n => toString n
  | .pbool b => if b then "true" else "false"
  | .parr xs => String.intercalate "," xs
  | .range _ _ => "[object Object]"
  | .affiliation _ _ => "[object Object]"
  | .table rows => String.intercalate "," (rows.map fun _ => "[object Object]")

/-- The `start` property read off an answer payload without optional
chaining (`answer.answer.start`): `undefined` on every non-range shape,
a `TypeError` when the payload itself is `undefined`. -/
def getStart : Payload → Option String
  | .range st _ => st
  | _ => none

/-- The `end` property read off an answer payload, like `getStart`. -/
def getEnd : Payload → Option String
  | .range _ en => en
  | _ => none

/-- The `affiliationId` property of an answer payload. -/
def getAffiliationId : Payload → Option String
  | .affiliation aid _ => aid
  | _ => none

/-- The `affiliationName` property of an answer payload. -/
def getAffiliationName : Payload → Option String
  | .affiliation _ aname => aname
  | _ => none

/-- The "answered" determination performed inline by the
`questionAnswerForDisplay` Handlebars helper of `src/html.ts`
(lines 269–302): `false` when the answer object is absent or carries no
`type`; then a `switch` on the type tag. The `dateRange`/`numberRange`
branch dereferences `answer.answer` without optional chaining, so a
missing payload under those tags throws. -/
def answeredOf (answer : Option AnswerJson) : Except JsError Bool :=
  match answer with
  | none => .ok false
  | some a =>
    match a.type with
    | none => .ok false
    | some t =>
      if t = "boolean" then .ok true
      else if t = "currency" ∨ t = "number" then .ok a.answer.isSome
      else if t = "dateRange" ∨ t = "numberRange" then
        match a.answer with
        | none => .error .typeError
        | some p => .ok ((getStart p).isSome || (getEnd p).isSome)
      else if t = "checkBoxes" ∨ t = "multiselectBox" then
        match a.answer with
        | some (.parr xs) => .ok (decide (xs.length > 0))
        | _ => .ok false
      else if t = "affiliationSearch" then
        .ok ((a.answer.bind getAffiliationId).isSome
          || (a.answer.bind getAffiliationName).isSome)
      else
        match a.answer with
        | none => .ok false
        | some p => .ok (decide ((jsTrim (jsToString p)).length > 0))

/-- The external library functions the renderers call but whose behaviour
the embedding does not fix: `formatDate` delegates to the JavaScript
`Date` object and `en-US` locale formatting (src/helper.ts), number
formatting delegates to `Number.prototype.toLocaleString`, `pluralize` is
the npm package of that name, and `jsonStringify` is the built-in
`JSON.stringify`. Theorems quantify over this record unless a concrete
instance is needed. -/
structure ExtFns : Type where
  formatDate : Option String → String
  numToLocale : Int → String
  pluralize : String → String
  jsonStringify : Payload → String

/-- `Object.keys(AnswerSchemaMap)` of `@dmptool/types`: the known answer
type tags (the fourteen variants listed in the specification's data
model). -/
def knownTags : List String :=
  ["text", "textArea", "date", "dateRange", "number", "numberRange",
   "currency", "boolean", "url", "email", "checkBoxes", "multiselectBox",
   "affiliationSearch", "table"]

/-- Modelled from the spec: the Zod schemas `AnswerSchemaMap` of the
external `@dmptool/types` package, absent from `src/`. Per the data-model
invariant, "the tag determines the legal shape of the payload; a payload
whose shape does not match its declared tag is treated as invalid, not
silently coerced": each known tag accepts exactly the payload shape of
its variant. -/
def answerSchemaOk (tag : String) (answer : Option Payload) : Bool :=
  match tag, answer with
  | "text", some (.str _) => true
  | "textArea", some (.str _) => true
  | "date", some (.str _) => true
  | "url", some (.str _) => true
  | "email", some (.str _) => true
  | "number", some (.num _) => true
  | "currency", some (.num _) => true
  | "boolean", some (.pbool _) => true
  | "dateRange", some (.range _ _) => true
  | "numberRange", some (.range _ _) => true
  | "checkBoxes", some (.parr _) => true
  | "multiselectBox", some (.parr _) => true
  | "affiliationSearch", some (.affiliation _ _) => true
  | "table", some (.table _) => true
  | _, _ => false

/-- The inline "unable to render" marker for an unknown type tag
(src/html.ts line 26). -/
def unknownTypeMarker : String := "<p>Unable to render this answer (unknown type).</p>"

/-- The inline "unable to render" marker for a schema-invalid payload
(src/html.ts line 32). -/
def invalidAnswerMarker : String := "<p>Unable to render this answer (invalid answer).</p>"

/-- `Object.keys(AnswerSchemaMap).includes(json['type'])`: whether the
declared tag is known (`includes(undefined)` is false for a missing
tag). -/
def tagKnown (jtype : Option String) : Bool :=
  match jtype with
  | some t => knownTags.contains t
  | none => false

/-- `AnswerSchemaMap[json['type']]?.safeParse(json)` succeeded: vacuously
true for a missing tag (no schema is looked up then; that case is
already rejected as unknown). -/
def schemaValid (jtype : Option String) (janswer : Option Payload) : Bool :=
  match jtype with
  | some t => answerSchemaOk t janswer
  | none => true

mutual

/-- The `switch` of `answerToHTML` (src/html.ts lines 35–130), reached
after the unknown-tag and schema guards: dispatch on the tag. The `out`
default `"<p>Not yet answered.</p>"` survives when the payload is falsy
and the tag is not `boolean`, and for empty check-box / multi-select
arrays. Table answers recurse into their cells; a `table` tag whose
payload is not an array throws (`rows.map` on a non-array). -/
def answerToHTMLCore (ext : ExtFns) (jtype : Option String)
    (janswer : Option Payload) (jcols : Option (List String)) :
    Except JsError String :=
      let truthy := match janswer with
        | some p => payloadTruthy p
        | none => false
      if truthy || (jtype == some "boolean") then
        match jtype, janswer with
        | some "textArea", some p => .ok (jsToString p)
        | some "checkBoxes", some p | some "multiselectBox", some p =>
          (match p with
          | .parr xs =>
            if xs.length > 0 then
              .ok ("<ul>" ++ String.join (xs.map fun x => "<li>" ++ x ++ "</li>") ++ "</ul>")
            else .ok "<p>Not yet answered.</p>"
          | _ => .ok "<p>Not yet answered.</p>")
        | some "dateRange", some p =>
          .ok ("<p>" ++ ext.formatDate (getStart p) ++ " to " ++ ext.formatDate (getEnd p) ++ "</p>")
        | some "numberRange", some p =>
          .ok ("<p>" ++ jsInterp (getStart p) ++ " to " ++ jsInterp (getEnd p) ++ "</p>")
        | some "table", some (.table rows) => do
          let hdr := match jcols with
            | some cs => "<tr>" ++ String.join (cs.map fun th => "<th>" ++ th ++ "</th>") ++ "</tr>"
            | none => ""
          let body ← tableRowsToHTML ext rows
          .ok ("<table>" ++ "<table>" ++ hdr ++ body ++ "</table>")
        | some "table", some _ => .error .typeError
        | some "date", some p => .ok ("<p>" ++ ext.formatDate (some (jsToString p)) ++ "</p>")
        | some "currency", some p =>
          .ok ("<p>$" ++ (match p with | .num n => ext.numToLocale n | q => jsToString q) ++ "</p>")
        | some "number", some p =>
          .ok ("<p>" ++ (match p with | .num n => ext.numToLocale n | q => jsToString q) ++ "</p>")
        | some "boolean", a =>
          let tr := match a with
            | some p => payloadTruthy p
            | none => false
          .ok (if tr then "<p>Yes</p>" else "<p>No</p>")
        | some "affiliationSearch", some p =>
          if strTruthy (getAffiliationId p) then
            .ok ("<p><a href=\"" ++ jsInterp (getAffiliationId p) ++ "\" target=\"_blank\">"
              ++ jsInterp ((getAffiliationName p).or (getAffiliationId p)) ++ "</a></p>")
          else .ok ("<p>" ++ jsInterp (getAffiliationName p) ++ "</p>")
        | some "url", some p =>
          .ok ("<p><a href=\"" ++ jsToString p ++ "\" target=\"_blank\">" ++ jsToString p ++ "</a></p>")
        | some "email", some p =>
          .ok ("<p><a href=\"mailto:" ++ jsToString p ++ "\">" ++ jsToString p ++ "</a></p>")
        | _, some p => .ok ("<p>" ++ jsToString p ++ "</p>")
        | _, none => .ok "<p>Not yet answered.</p>"
      else .ok "<p>Not yet answered.</p>"

/-- `answerToHTML` of src/html.ts (lines 21–132): reject unknown tags
(line 25) and schema-invalid payloads (line 31) with their inline
markers, otherwise run the tag switch (`answerToHTMLCore`). -/
def answerToHTML (ext : ExtFns) (json : AnswerJson) : Except JsError String :=
  match json with
  | .mk jtype janswer jcols =>
    if tagKnown jtype = false then .ok unknownTypeMarker
    else if schemaValid jtype janswer = false then .ok invalidAnswerMarker
    else answerToHTMLCore ext jtype janswer jcols

/-- The `rows.map(...).join("")` part of the table branch. -/
def tableRowsToHTML (ext : ExtFns) (rows : List TableRow) : Except JsError String :=
  match rows with
  | [] => .ok ""
  | r :: rs => do
    let h ← tableRowToHTML ext r
    let t ← tableRowsToHTML ext rs
    .ok (h ++ t)

/-- One table row: `<tr>` around the rendered columns. -/
def tableRowToHTML (ext : ExtFns) (r : TableRow) : Except JsError String :=
  match r with
  | .mk cells => do
    let s ← tableCellsToHTML ext cells
    .ok ("<tr>" ++ s ++ "</tr>")

/-- The columns of one table row: each cell rendered through
`answerToHTML` recursively and wrapped in `<td>`. -/
def tableCellsToHTML (ext : ExtFns) (cells : List AnswerJson) : Except JsError String :=
  match cells with
  | [] => .ok ""
  | c :: cs => do
    let h ← answerToHTML ext c
    let t ← tableCellsToHTML ext cs
    .ok ("<td>" ++ h ++ "</td>" ++ t)

end

/-- The `questionAnswerForDisplay` Handlebars helper of src/html.ts
(lines 269–313): compute the "answered" determination (`answeredOf`),
return the empty string when unanswered and unanswered questions are
excluded, otherwise emit the question `div` with the optional question
text and either the rendered answer or the literal
`<p>Not answered</p>` placeholder. -/
def questionAnswerForDisplay (ext : ExtFns) (question : Option String)
    (answer : Option AnswerJson) (includeQs includeUnanswered : Bool) :
    Except JsError String := do
  let answered ← answeredOf answer
  if !answered && !includeUnanswered then
    return ""
  let qText := if includeQs then "<strong>" ++ jsInterp question ++ "</strong>" else ""
  let aText ← if answered then
      match answer with
      | some a => answerToHTML ext a
      -- `answerToHTML(undefined)` would throw on `json['type']`;
      -- unreachable because `answered` forces the answer to be present.
      | none => (.error .typeError : Except JsError String)
    else pure (if includeUnanswered then "<p>Not answered</p>" else "")
  return ("<div class=\"question\">" ++ qText ++ aText ++ "</div>")

-- ---------------- CSV rendering (src/csv.ts) ----------------

/-- Drop the characters of one `<...>` tag: everything up to and
including the first `>`. -/
def dropTag (cs : List Char) : List Char := (cs.dropWhile (· ≠ '>')).tail

/-- `dropWhile` never lengthens a list (used for the termination of the
tag-stripping scan). -/
theorem length_dropWhile_le_len (p : Char → Bool) :
    ∀ l : List Char, (l.dropWhile p).length ≤ l.length
  | [] => le_refl _
  | c :: r => by
    by_cases h : p c
    · simp only [List.dropWhile_cons, h, if_true]
      exact Nat.le_succ_of_le (length_dropWhile_le_len p r)
    · simp [List.dropWhile_cons, h]

/-- The global regex replacement `replace(/<[^>]*>/g, "")` of the
`textArea` branch of `answerToCSV`, on the character list: a `<` with a
later `>` consumes through that first `>`; a `<` with no later `>`
matches nothing, and nothing after it can match either. -/
def stripTagsGo : List Char → List Char
  | [] => []
  | c :: r =>
    if c = '<' then
      if r.contains '>' then stripTagsGo (dropTag r) else c :: r
    else c :: stripTagsGo r
termination_by cs => cs.length
decreasing_by
  · have h1 : (List.dropWhile (fun x => x ≠ '>') r).length ≤ r.length :=
      length_dropWhile_le_len _ _
    have h2 : (dropTag r).length ≤ r.length := by
      have := List.length_tail (List.dropWhile (fun x => x ≠ '>') r)
      simp only [dropTag]
      omega
    simpa using Nat.lt_succ_of_le h2
  · simp

/-- String form of `stripTagsGo`. -/
def stripTags (s : String) : String := String.mk (stripTagsGo s.data)

/-- A JavaScript scalar as it ends up in a CSV row cell: string, number,
boolean, a non-primitive object (carrying its `JSON.stringify` form, the
default cast `csv-stringify` applies to objects), or `undefined`. -/
inductive Scalar : Type where
  | s : String → Scalar
  | n : Int → Scalar
  | b : Bool → Scalar
  | obj : String → Scalar
  | jsUndefined : Scalar
  deriving Repr, DecidableEq

/-- The raw `json?.answer` value flowing into the default branch of
`answerToCSV`. -/
def scalarOfPayload (ext : ExtFns) : Payload → Scalar
  | .str v => .s v
  | .num v => .n v
  | .pbool v => .b v
  | p => .obj (ext.jsonStringify p)

/-- `answerToCSV` of src/csv.ts (lines 12–51). There is no tag or schema
validation here: the switch dispatches on `json?.type` and the final
`return answer ?? ''` defaults an unset result to the empty string. The
`textArea`, `dateRange`, `numberRange` and `affiliationSearch` branches
dereference the payload without optional chaining, so a missing payload
under those tags throws; the `table` branch returns
`JSON.stringify(json.answer)` directly (which is `undefined` for a
missing payload, bypassing the `?? ''` default). -/
def answerToCSV (ext : ExtFns) (json : Option AnswerJson) : Except JsError Scalar :=
  match json.bind AnswerJson.type with
  | some "textArea" =>
    (match json.bind AnswerJson.answer with
    | some (.str v) => .ok (.s (stripTags v))
    | _ => .error .typeError)
  | some "dateRange" =>
    (match json.bind AnswerJson.answer with
    | none => .error .typeError
    | some p => .ok (.s (ext.formatDate (getStart p) ++ " to " ++ ext.formatDate (getEnd p))))
  | some "numberRange" =>
    (match json.bind AnswerJson.answer with
    | none => .error .typeError
    | some p => .ok (.s (jsInterp (getStart p) ++ " to " ++ jsInterp (getEnd p))))
  | some "checkBoxes" | some "multiselectBox" =>
    (match json.bind AnswerJson.answer with
    | some (.parr xs) =>
      if xs.length > 0 then .ok (.s (String.intercalate "; " xs)) else .ok (.s "")
    | _ => .ok (.s ""))
  | some "affiliationSearch" =>
    (match json.bind AnswerJson.answer with
    | none => .error .typeError
    | some p =>
      if strTruthy (getAffiliationId p) then
        .ok (.s (jsInterp (getAffiliationName p) ++ " (" ++ jsInterp (getAffiliationId p) ++ ")"))
      else .ok (.s ((getAffiliationName p).getD "")))
  | some "table" =>
    (match json.bind AnswerJson.answer with
    | some p => .ok (.s (ext.jsonStringify p))
    | none => .ok .jsUndefined)
  | _ =>
    (match json.bind AnswerJson.answer with
    | some p => .ok (scalarOfPayload ext p)
    | none => .ok (.s ""))

/-- The per-request display toggles (`DisplayOptionsInterface` of
src/server.ts). -/
structure DisplayOptions : Type where
  includeCoverPage : Bool
  includeSectionHeadings : Bool
  includeQuestionText : Bool
  includeUnansweredQuestions : Bool
  includeResearchOutputs : Bool
  includeRelatedWorks : Bool
  deriving Repr, DecidableEq

/-- A question of the narrative template instance, as the renderers read
it. -/
structure Question : Type where
  question_text : Option String
  answer_json : Option AnswerJson

/-- A section of the narrative template instance. -/
structure Section : Type where
  section_title : Option String
  questions : Option (List Question)

/-- The `dmproadmap_narrative` object of the canonical model. -/
structure Narrative : Type where
  sections : Option (List Section)

/-- A related-work entry of `dmproadmap_related_identifiers` (its
`work_type` may be a list of type labels; `works.map(...).flat()` in the
grouping helper flattens it). -/
structure RelatedWork : Type where
  work_type : List String
  citation : Option String
  identifier : Option String

/-- An identifier object with an `identifier` field. -/
structure IdRef : Type where
  identifier : Option String

/-- An affiliation entry with a nested `affiliation_id`. -/
structure Affiliation : Type where
  affiliation_id : Option IdRef

/-- The plan's contact person, as the permission gate reads it. -/
structure Contact : Type where
  affiliation : Option (List Affiliation)

/-- A contributor, as the permission gate reads it. -/
structure Contributor : Type where
  affiliation : Option (List Affiliation)

/-- The `dmp` object inside a maDMP record: the fields the route handler,
the permission gate and the renderers dereference. -/
structure DmpBody : Type where
  title : Option String
  modified : Option String
  privacy : Option String
  contact : Option Contact
  contributor : Option (List Contributor)
  dmp_id : Option IdRef
  dmproadmap_narrative : Option Narrative
  dmproadmap_related_identifiers : Option (List RelatedWork)

/-- A maDMP record from the key-value store (`DMPToolDMPType`): a wrapper
whose `dmp` may be missing. -/
structure MaDMP : Type where
  dmp : Option DmpBody

/-- The default cast `csv-stringify` applies when turning a row value
into CSV text: strings unchanged, numbers via `String(value)`, `true`
becomes `"1"` and `false` the empty string, objects their JSON form,
`undefined` the empty string. -/
def csvCast : Scalar → String
  | .s v => v
  | .n v => toString v
  | .b v => if v then "1" else ""
  | .obj j => j
  | .jsUndefined => ""

/-- `csv-stringify` field quoting: a field containing the delimiter, the
quote character or a record delimiter is wrapped in double quotes with
embedded quotes doubled. -/
def csvQuote (s : String) : String :=
  if s.contains ',' || s.contains '"' || s.contains '\n' || s.contains '\r' then
    "\"" ++ String.mk (s.data.flatMap fun c => if c = '"' then ['"', '"'] else [c]) ++ "\""
  else s

/-- One CSV record: quoted fields joined by commas. -/
def csvLine (fields : List String) : String :=
  String.intercalate "," (fields.map csvQuote)

/-- `stringify(rows, { header: true, columns })` of the external
`csv-stringify` package: the header record built from the provided
column names, then one record per row, each record terminated by the
record delimiter. -/
def stringifyCSV (rows : List (List Scalar)) (columns : List String) : String :=
  String.join ((csvLine columns :: rows.map fun r => csvLine (r.map csvCast)).map fun l => l ++ "\n")

/-- A possibly-missing string pushed as a row cell (an `undefined` title
or question text reaches `csv-stringify` as `undefined`). -/
def cellOf : Option String → Scalar
  | some v => .s v
  | none => .jsUndefined

/-- One data row of `renderCSV`: optional section title, optional
question text, then the answer (`answerToCSV` result defaulted by
`?? ''`). -/
def questionRow (ext : ExtFns) (display : DisplayOptions) (s : Section)
    (q : Question) : Except JsError (List Scalar) := do
  let answer ← answerToCSV ext q.answer_json
  let answerCell := match answer with
    | .jsUndefined => .s ""
    | a => a
  return ((if display.includeSectionHeadings then [cellOf s.section_title] else [])
    ++ (if display.includeQuestionText then [cellOf q.question_text] else [])
    ++ [answerCell])

/-- The rows contributed by one section (`section.questions?.map(...)`:
a section with no questions array contributes nothing). -/
def sectionRows (ext : ExtFns) (display : DisplayOptions) (s : Section) :
    Except JsError (List (List Scalar)) :=
  match s.questions with
  | none => .ok []
  | some qs => qs.mapM (questionRow ext display s)

/-- `renderCSV` of src/csv.ts (lines 55–92): when
`data.dmproadmap_narrative?.sections` is present (a JavaScript array is
truthy even when empty), push the enabled column names and build one row
per question; otherwise both the column list and the row list stay
empty. The result is always passed through `stringify` with
`header: true`. -/
def renderCSV (ext : ExtFns) (display : DisplayOptions) (data : DmpBody) :
    Except JsError String :=
  match data.dmproadmap_narrative.bind Narrative.sections with
  | none => .ok (stringifyCSV [] [])
  | some secs => do
    let columns := (if display.includeSectionHeadings then ["Section"] else [])
      ++ (if display.includeQuestionText then ["Question"] else [])
      ++ ["Answer"]
    let rows ← secs.mapM (sectionRows ext display)
    return stringifyCSV rows.flatten columns

-- ---------------- Related works (src/html.ts) ----------------

/-- The regex replacement `replace(/_/g, " ")`: every underscore becomes
a space. -/
def underscoresToSpaces (s : String) : String :=
  String.mk (s.data.map fun c => if c = '_' then ' ' else c)

/-- `workTypeForDisplay` of src/html.ts (lines 135–140): underscores
become spaces, the label is pluralized when `pluralizeIt` (the external
`pluralize` package), and the first character is upper-cased
(`typeLabel[0].toUpperCase()` throws when the label is empty). -/
def workTypeForDisplay (ext : ExtFns) (workType : String) (pluralizeIt : Bool) :
    Except JsError String :=
  let typeLabel := underscoresToSpaces workType
  let typeLabel := if pluralizeIt then ext.pluralize typeLabel else typeLabel
  match typeLabel.data with
  | [] => .error .typeError
  | c :: rest => .ok (String.mk (c.toUpper :: rest))

/-- The citation-or-link text for one related work
(`work?.citation ? work.citation : <a ...>`). -/
def workText (w : RelatedWork) : String :=
  if strTruthy w.citation then w.citation.getD ""
  else "<a href=\"" ++ jsInterp w.identifier ++ "\" target=\"_blank\">"
    ++ jsInterp w.identifier ++ "</a>"

/-- `relatedWorksForType` of src/html.ts (lines 144–153): the works whose
`work_type` list contains the given type, as `<li>` items, or `null`
(here `none`) when no work matches. -/
def relatedWorksForType (workType : String) (works : List RelatedWork) :
    Option String :=
  let out := (works.filter fun w => w.work_type.contains workType).map workText
  if out.isEmpty then none
  else some (String.join (out.map fun x => "<li>" ++ x ++ "</li>"))

/-- The worker behind `[...new Set(xs)]`: keep each element the first
time it appears, tracking what has been seen. -/
def dedupFirstAux (seen : List String) : List String → List String
  | [] => []
  | x :: r =>
    if seen.contains x then dedupFirstAux seen r
    else x :: dedupFirstAux (x :: seen) r

/-- `[...new Set(xs)]`: the distinct elements in first-seen order. -/
def dedupFirst (xs : List String) : List String := dedupFirstAux [] xs

/-- The loop body of `relatedWorksByType` for one distinct work type:
the type's `<li>` group entry when some work matches, `none` otherwise
(the `if (worksForType)` truthiness test). The label is produced by
`workTypeForDisplay` at its default `pluralizeIt = true`. -/
def groupEntry (ext : ExtFns) (works : List RelatedWork) (workType : String) :
    Except JsError (Option String) := do
  let worksForType := relatedWorksForType workType works
  if strTruthy worksForType then do
    let label ← workTypeForDisplay ext workType true
    pure (some ("<li><strong>" ++ label ++ "</strong><ul>"
      ++ worksForType.getD "" ++ "</ul></li>"))
  else
    pure (none : Option String)

/-- The `relatedWorksByType` Handlebars helper of src/html.ts
(lines 191–207): empty input renders as the empty string; otherwise the
flattened work types are deduplicated in first-seen order and each type
with at least one matching work contributes a labeled sub-list
(`groupEntry`). -/
def relatedWorksByType (ext : ExtFns) (works : List RelatedWork) :
    Except JsError String :=
  if works.length < 1 then .ok ""
  else do
    let workTypes := (works.map RelatedWork.work_type).flatten
    let entries ← (dedupFirst workTypes).mapM (groupEntry ext works)
    let out := entries.reduceOption
    if out.isEmpty then return "None specified"
    else return "<ul>" ++ String.join out ++ "</ul>"

-- ---------------- Permission gate (src/dataAccess.ts) ----------------

/-- One entry of the caller's accessible-plan list
(`UserPlanInterface`). -/
structure UserPlan : Type where
  dmpId : String

/-- The caller's JWT claims, as the permission gate reads them
(`JWTAccessToken`). -/
structure Token : Type where
  role : Option String
  affiliationId : Option String

/-- `affiliation[0]?.affiliation_id?.identifier` on a present affiliation
array. -/
def firstAffiliationId (affs : List Affiliation) : Option String :=
  (affs.head?.bind Affiliation.affiliation_id).bind IdRef.identifier

/-- `hasPermissionToDownloadNarrative` of src/dataAccess.ts
(lines 123–148): public plans are always downloadable; otherwise a token
is required; a `SUPERADMIN` token always passes; otherwise the contact's
and contributors' first affiliation identifiers are collected (the
affiliation arrays are indexed without optional chaining, so a person
with no affiliation array throws) and an `ADMIN` of a collected
affiliation, or any caller whose plan list contains the plan's
identifier, passes. -/
def hasPermissionToDownloadNarrative (data : MaDMP) (userDMPs : List UserPlan)
    (token : Option Token) : Except JsError Bool :=
  if (data.dmp.bind DmpBody.privacy) = some "public" then .ok true
  else
    match token with
    | none => .ok false
    | some tok =>
      if tok.role = some "SUPERADMIN" then .ok true
      else do
        let dmp ← match data.dmp with
          | some d => pure d
          | none => (.error .typeError : Except JsError DmpBody)
        let contactAffil ← match dmp.contact with
          | none => pure (none : Option String)
          | some c =>
            match c.affiliation with
            | none => (.error .typeError : Except JsError (Option String))
            | some affs => pure (firstAffiliationId affs)
        let contribAffils ← match dmp.contributor with
          | some cs => cs.mapM fun c =>
              match c.affiliation with
              | none => (.error .typeError : Except JsError (Option String))
              | some affs => pure (firstAffiliationId affs)
          | none => pure []
        let affiliations := contactAffil :: contribAffils
        return ((tok.role == some "ADMIN" && affiliations.contains tok.affiliationId)
          || userDMPs.any fun d => (dmp.dmp_id.bind IdRef.identifier) == some d.dmpId)

-- ---------------- Freshness-reconciliation protocol (src/server.ts) ----------------

/-- A row of the relational `plans` table (`PlanInterface`). -/
structure PlanRec : Type where
  id : Int
  dmpId : String
  modified : String
  visibility : String

/-- The observable storage effects of one request, in order. -/
inductive Effect : Type where
  | loadPlanRDS
  | loadUserPlansRDS
  | cacheRead
  | rebuildFromRDS
  | cacheCreate (m : MaDMP)
  | cacheReplace (m : MaDMP)

/-- Whether an effect writes to the key-value store. -/
def Effect.isCacheWrite : Effect → Bool
  | .cacheCreate _ => true
  | .cacheReplace _ => true
  | _ => false

/-- Whether an effect reads the key-value store. -/
def Effect.isCacheRead : Effect → Bool
  | .cacheRead => true
  | _ => false

/-- The storage world one request runs against: what the source of
record returns for the requested identifier, the caller's plan list and
token, the cached maDMP record (if any), and what the external
`planToDMPCommonStandard` rebuild would produce. -/
structure World : Type where
  plan : Option PlanRec
  userPlans : List UserPlan
  token : Option Token
  cached : Option MaDMP
  generated : Option MaDMP

/-- `persistMaDMPRecord` of src/dataAccess.ts (lines 248–279): replace
(`updateDMP`) when `wasJustOutdated`, create (`createDMP`) otherwise. -/
def persistEffect (maDMP : MaDMP) (wasJustOutdated : Bool) : Effect :=
  if wasJustOutdated then .cacheReplace maDMP else .cacheCreate maDMP

/-- `handleMissingMaDMP` of src/dataAccess.ts (lines 294–326): rebuild
the maDMP from the source of record (the external
`planToDMPCommonStandard`, supplied by the world), persist it when both
the record and its `dmp` are present, and return it either way. -/
def handleMissingMaDMP (generated : Option MaDMP) (wasJustOutdated : Bool) :
    List Effect × Option MaDMP :=
  match generated with
  | some m =>
    if m.dmp.isSome then ([.rebuildFromRDS, persistEffect m wasJustOutdated], some m)
    else ([.rebuildFromRDS], some m)
  | none => ([.rebuildFromRDS], none)

/-- The reconciliation core of the route handler (src/server.ts
lines 215–227): regenerate when the cached record is missing or its
`dmp.modified` differs from the converted source-of-record timestamp,
passing `rdsDate !== maDMP?.dmp?.modified` as the `wasJustOutdated`
flag. -/
def reconcile (rdsDate : String) (cached generated : Option MaDMP) :
    List Effect × Option MaDMP :=
  let cachedModified : Option String := (cached.bind MaDMP.dmp).bind DmpBody.modified
  if cached.isNone || (some rdsDate != cachedModified) then
    handleMissingMaDMP generated (some rdsDate != cachedModified)
  else ([], cached)

/-- What one request produced: the effect trace, the HTTP status, the
short response body for the error statuses, and the maDMP model handed
to the format dispatch on success. -/
structure HandlerResult : Type where
  effects : List Effect
  status : Nat
  body : String
  served : Option MaDMP

/-- The narrative route handler of src/server.ts (lines 188–243),
parameterized by the external `convertMySQLDateTimeToRFC3339`: load the
plan row (404 `"Plan not found"` when absent, before any cache access),
load the caller's plans, read the cache, reconcile, bail out with 500
when no usable maDMP resulted, apply the permission gate (404
`"DMP not found"` on denial; a thrown gate error lands in the handler's
`catch`, 500 `"Document generation failed"`), and otherwise hand the
model to the format dispatch (the per-format rendering, embedded
separately as `renderCSV` etc., consumes `served`). -/
def narrativeHandler (convert : String → String) (w : World) : HandlerResult :=
  match w.plan with
  | none =>
    { effects := [.loadPlanRDS], status := 404, body := "Plan not found", served := none }
  | some plan =>
    let rdsDate := convert plan.modified
    let rm := reconcile rdsDate w.cached w.generated
    let effects := [.loadPlanRDS, .loadUserPlansRDS, .cacheRead] ++ rm.1
    match rm.2 with
    | none =>
      { effects := effects, status := 500,
        body := "Unable to generate a narrative at this time", served := none }
    | some m =>
      if m.dmp.isNone then
        { effects := effects, status := 500,
          body := "Unable to generate a narrative at this time", served := none }
      else
        match hasPermissionToDownloadNarrative m w.userPlans w.token with
        | .error _ =>
          { effects := effects, status := 500,
            body := "Document generation failed", served := none }
        | .ok false =>
          { effects := effects, status := 404, body := "DMP not found", served := none }
        | .ok true =>
          { effects := effects, status := 200, body := "", served := some m }

/-- The key-value store contents for this identifier after a trace of
effects: `createDMP` and `updateDMP` both leave the whole freshly built
record in place (per the spec, the two "differ only in backing-store
semantics, not in the model produced"). -/
def cacheAfter (initial : Option MaDMP) (effects : List Effect) : Option MaDMP :=
  effects.foldl
    (fun acc e =>
      match e with
      | .cacheCreate m => some m
      | .cacheReplace m => some m
      | _ => acc)
    initial

/-- The `{{#each questions}} {{{questionAnswerForDisplay ...}}} {{/each}}`
loop of the narrative body of `renderHTML` (src/html.ts lines 450–452):
the concatenation of the helper's output for each question, in stored
order (the template's inter-tag whitespace is elided). -/
def questionsHTML (ext : ExtFns) (display : DisplayOptions) :
    List Question → Except JsError String
  | [] => .ok ""
  | q :: qs => do
    let h ← questionAnswerForDisplay ext q.question_text q.answer_json
      display.includeQuestionText display.includeUnansweredQuestions
    let t ← questionsHTML ext display qs
    .ok (h ++ t)

/-- A concrete instance of the external library functions, for evaluating
the embedding at concrete inputs: dates echo their input, numbers print
canonically, `pluralize` is modelled from the spec for regular English
nouns (append `s`, as the npm package does on the nouns appearing here),
and `JSON.stringify` is left trivial (no concrete theorem depends on
it). -/
def extW : ExtFns where
  formatDate := jsInterp
  numToLocale := toString
  pluralize := fun s => s ++ "s"
  jsonStringify := fun _ => ""

/-- A string is non-empty exactly when its length is positive (bridges
the claim's "non-empty after trimming" with the code's
`.trim().length > 0`). -/
theorem string_ne_empty_iff_length_pos (s : String) : (s ≠ "") ↔ 0 < s.length := by
  constructor
  · intro h
    cases s with
    | mk data =>
      cases data with
      | nil => exact absurd rfl h
      | cons a l => simp [String.length]
  · intro h he
    subst he
    simp [String.length] at h

-- ==================== Concrete worlds for evaluation ====================

/-- A relational plan row used in concrete scenarios. -/
def planW : PlanRec := ⟨1, "doi-1", "2024-01-01", "private"⟩

/-- A public `dmp` body whose modified timestamp matches `planW` under the
identity conversion. -/
def pubBody : DmpBody := ⟨none, some "2024-01-01", some "public", none, none, none, none, none⟩

/-- A private `dmp` body whose modified timestamp matches `planW` under
the identity conversion. -/
def privBody : DmpBody := ⟨none, some "2024-01-01", some "private", none, none, none, none, none⟩

/-- A freshly generated public maDMP record. -/
def genM : MaDMP := ⟨some pubBody⟩

/-- A world with no source-of-record entry for the identifier. -/
def wNoPlan : World := ⟨none, [], none, none, some genM⟩

/-- A world whose plan exists and is fresh in the cache, but is private
and requested without a token: the permission predicate is false. -/
def wForbidden : World := ⟨some planW, [], none, some ⟨some privBody⟩, none⟩

/-- A world whose plan exists but has no cached maDMP record;
regeneration succeeds. -/
def wMissingCache : World := ⟨some planW, [], none, none, some genM⟩

-- ==================== Claims ====================

/-- C10: for every maDMP record, user-plan list and present token, the
permission gate `hasPermissionToDownloadNarrative` returns true whenever
the token's role is `SUPERADMIN`, regardless of the privacy flag, the
affiliations or the caller's plan list. -/
theorem C10_superadmin_always_permitted (data : MaDMP) (userDMPs : List UserPlan)
    (tok : Token) (h : tok.role = some "SUPERADMIN") :
    hasPermissionToDownloadNarrative data userDMPs (some tok) = .ok true := by
  unfold hasPermissionToDownloadNarrative
  by_cases hp : (data.dmp.bind DmpBody.privacy) = some "public"
  · simp [hp]
  · simp [hp, h]

/-- Witness for C10 at a private plan, an empty plan list and a
SUPERADMIN token with no affiliation. -/
theorem C10_superadmin_always_permitted_witness :
    hasPermissionToDownloadNarrative ⟨some privBody⟩ []
      (some ⟨some "SUPERADMIN", none⟩) = .ok true :=
  C10_superadmin_always_permitted ⟨some privBody⟩ [] ⟨some "SUPERADMIN", none⟩ rfl

/-- C5: for every identifier with no source-of-record entry, the handler
responds 404 "Plan not found" with nothing served, and the effect trace
contains no key-value cache read. -/
theorem C5_not_found_before_cache_read (convert : String → String) (w : World)
    (h : w.plan = none) :
    (narrativeHandler convert w).status = 404
    ∧ (narrativeHandler convert w).body = "Plan not found"
    ∧ (narrativeHandler convert w).served = none
    ∧ ∀ e ∈ (narrativeHandler convert w).effects, e.isCacheRead = false := by
  simp [narrativeHandler, h, Effect.isCacheRead]

/-- Witness for C5 at a concrete empty world. -/
theorem C5_not_found_before_cache_read_witness :
    (narrativeHandler id wNoPlan).status = 404
    ∧ (narrativeHandler id wNoPlan).body = "Plan not found"
    ∧ (narrativeHandler id wNoPlan).served = none
    ∧ ∀ e ∈ (narrativeHandler id wNoPlan).effects, e.isCacheRead = false :=
  C5_not_found_before_cache_read id wNoPlan rfl

/-- C2, counterexample: the NotFound response and the Forbidden response
share the 404 status but carry different bodies ("Plan not found" vs
"DMP not found"), so the two responses are not identical as the claim
states. -/
theorem C2_distinct_bodies_counterexample :
    (narrativeHandler id wNoPlan).status = 404
    ∧ (narrativeHandler id wForbidden).status = 404
    ∧ (narrativeHandler id wNoPlan).body = "Plan not found"
    ∧ (narrativeHandler id wForbidden).body = "DMP not found"
    ∧ (narrativeHandler id wNoPlan).body ≠ (narrativeHandler id wForbidden).body := by
  refine ⟨rfl, rfl, rfl, rfl, ?_⟩
  decide

/-- C2, amended: the NotFound case and the Forbidden case (entry exists,
permission predicate false) both yield status 404, but their bodies are
the distinct strings "Plan not found" and "DMP not found" — the status
code alone hides existence, the bodies do not. -/
theorem C2_amended_same_status_distinct_bodies (convert : String → String)
    (w w' : World) (p : PlanRec) (m : MaDMP)
    (h1 : w.plan = none)
    (h2 : w'.plan = some p)
    (h3 : (reconcile (convert p.modified) w'.cached w'.generated).2 = some m)
    (h4 : m.dmp.isSome = true)
    (h5 : hasPermissionToDownloadNarrative m w'.userPlans w'.token = .ok false) :
    (narrativeHandler convert w).status = 404
    ∧ (narrativeHandler convert w').status = 404
    ∧ (narrativeHandler convert w).body = "Plan not found"
    ∧ (narrativeHandler convert w').body = "DMP not found" := by
  unfold narrativeHandler
  rw [h1, h2]
  simp only [h3, h5, Option.isNone_iff_eq_none]
  have h4' : ¬ m.dmp = none := by
    intro hc
    rw [hc] at h4
    exact Bool.noConfusion h4
  simp [h4']

/-- Witness for C2's amended statement at the two concrete worlds. -/
theorem C2_amended_same_status_distinct_bodies_witness :
    (narrativeHandler id wNoPlan).status = 404
    ∧ (narrativeHandler id wForbidden).status = 404
    ∧ (narrativeHandler id wNoPlan).body = "Plan not found"
    ∧ (narrativeHandler id wForbidden).body = "DMP not found" :=
  C2_amended_same_status_distinct_bodies id wNoPlan wForbidden planW
    ⟨some privBody⟩ rfl rfl rfl rfl rfl

/-- C1: evaluating the handler at a plan whose cached copy is absent (and
whose regeneration succeeds) shows the persist step receives
`wasJustOutdated = true` and issues the replace operation
(`updateDMP`), not the create operation the claim (and
`persistMaDMPRecord`'s own parameter documentation) requires when no
cached copy existed: the flag `rdsDate !== maDMP?.dmp?.modified` is true
whenever the cached record is missing. -/
theorem C1_missing_cache_issues_replace :
    reconcile "2024-01-01" none (some genM)
      = ([.rebuildFromRDS, .cacheReplace genM], some genM)
    ∧ (narrativeHandler id wMissingCache).effects
      = [.loadPlanRDS, .loadUserPlansRDS, .cacheRead, .rebuildFromRDS, .cacheReplace genM]
    ∧ (narrativeHandler id wMissingCache).status = 200 := by
  refine ⟨rfl, rfl, rfl⟩

/-- C3: the "answered" determination of `questionAnswerForDisplay`, tag
by tag: false for an absent Answer; true for boolean Answers regardless
of payload; for currency/number, true iff the value is defined; for
date-range/number-range, true iff at least one bound is defined; for
checkbox/multiselect, true iff the collection is non-empty; for
affiliation references, true iff an identifier or a display name is
present; for every other tag, true iff the stringified value is
non-empty after trimming (and false when no value is present at all). -/
theorem C3_answered_determination :
    (answeredOf none = .ok false)
    ∧ (∀ p c, answeredOf (some (.mk (some "boolean") p c)) = .ok true)
    ∧ (∀ t p c, t = "currency" ∨ t = "number" →
        answeredOf (some (.mk (some t) p c)) = .ok p.isSome)
    ∧ (∀ t st en c, t = "dateRange" ∨ t = "numberRange" →
        answeredOf (some (.mk (some t) (some (.range st en)) c))
          = .ok (st.isSome || en.isSome))
    ∧ (∀ t xs c, t = "checkBoxes" ∨ t = "multiselectBox" →
        answeredOf (some (.mk (some t) (some (.parr xs)) c)) = .ok (decide (xs ≠ [])))
    ∧ (∀ aid aname c,
        answeredOf (some (.mk (some "affiliationSearch") (some (.affiliation aid aname)) c))
          = .ok (aid.isSome || aname.isSome))
    ∧ (∀ t p c,
        t ∉ ["boolean", "currency", "number", "dateRange", "numberRange",
             "checkBoxes", "multiselectBox", "affiliationSearch"] →
        answeredOf (some (.mk (some t) (some p) c))
          = .ok (decide ((jsTrim (jsToString p)) ≠ "")))
    ∧ (∀ t c,
        t ∉ ["boolean", "currency", "number", "dateRange", "numberRange",
             "checkBoxes", "multiselectBox", "affiliationSearch"] →
        answeredOf (some (.mk (some t) none c)) = .ok false) := by
  refine ⟨rfl, ?_, ?_, ?_, ?_, ?_, ?_, ?_⟩
  · intro p c
    simp [answeredOf, AnswerJson.type, AnswerJson.answer]
  · rintro t p c (rfl | rfl) <;>
      simp [answeredOf, AnswerJson.type, AnswerJson.answer]
  · rintro t st en c (rfl | rfl) <;>
      simp [answeredOf, AnswerJson.type, AnswerJson.answer, getStart, getEnd]
  · rintro t xs c (rfl | rfl) <;>
      · simp only [answeredOf, AnswerJson.type, AnswerJson.answer]
        norm_num
        cases xs <;> simp
  · intro aid aname c
    simp [answeredOf, AnswerJson.type, AnswerJson.answer,
      getAffiliationId, getAffiliationName]
  · intro t p c h
    simp only [List.mem_cons, List.mem_singleton] at h
    push_neg at h
    obtain ⟨h1, h2, h3, h4, h5, h6, h7, h8, -⟩ := h
    simp only [answeredOf, AnswerJson.type, AnswerJson.answer]
    rw [if_neg h1, if_neg (by tauto), if_neg (by tauto), if_neg (by tauto),
      if_neg h8]
    simp [string_ne_empty_iff_length_pos]
  · intro t c h
    simp only [List.mem_cons, List.mem_singleton] at h
    push_neg at h
    obtain ⟨h1, h2, h3, h4, h5, h6, h7, h8, -⟩ := h
    simp only [answeredOf, AnswerJson.type, AnswerJson.answer]
    rw [if_neg h1, if_neg (by tauto), if_neg (by tauto), if_neg (by tauto),
      if_neg h8]

/-- Witness for C3 at concrete answers of each hypothesis-guarded kind. -/
theorem C3_answered_determination_witness :
    answeredOf (some (.mk (some "number") (some (.num 3)) none)) = .ok true
    ∧ answeredOf (some (.mk (some "dateRange") (some (.range (some "a") none)) none))
        = .ok true
    ∧ answeredOf (some (.mk (some "checkBoxes") (some (.parr [])) none)) = .ok false
    ∧ answeredOf (some (.mk (some "text") (some (.str "  ")) none)) = .ok false
    ∧ answeredOf (some (.mk (some "text") none none)) = .ok false := by
  have h := C3_answered_determination
  refine ⟨?_, ?_, ?_, ?_, ?_⟩
  · simpa using h.2.2.1 "number" (some (.num 3)) none (Or.inr rfl)
  · simpa using h.2.2.2.1 "dateRange" (some "a") none none (Or.inl rfl)
  · simpa using h.2.2.2.2.1 "checkBoxes" [] none (Or.inl rfl)
  · have hv := h.2.2.2.2.2.2.1 "text" (.str "  ") none (by decide)
    rw [hv]
    have he : (decide ((jsTrim (jsToString (Payload.str "  "))) ≠ "")) = false := by decide
    rw [he]
  · exact h.2.2.2.2.2.2.2 "text" none (by decide)

/-- C7: for every question and display-option combination, an unanswered
question renders as the empty string when `includeUnanswered` is false
(no placeholder, no question text), and with a literal
`<p>Not answered</p>` placeholder in the answer slot when
`includeUnanswered` is true. -/
theorem C7_unanswered_question_rendering (ext : ExtFns) (q : Option String)
    (a : Option AnswerJson) (includeQs : Bool)
    (h : answeredOf a = .ok false) :
    questionAnswerForDisplay ext q a includeQs false = .ok ""
    ∧ questionAnswerForDisplay ext q a includeQs true =
        .ok ("<div class=\"question\">"
          ++ (if includeQs then "<strong>" ++ jsInterp q ++ "</strong>" else "")
          ++ "<p>Not answered</p>" ++ "</div>") := by
  constructor <;>
    simp [questionAnswerForDisplay, h, Except.instMonad, Except.bind, Except.pure,
      Bind.bind, Pure.pure, String.append_assoc]

/-- Witness for C7 at an absent answer with the question text shown. -/
theorem C7_unanswered_question_rendering_witness :
    questionAnswerForDisplay extW (some "Q") none true false = .ok ""
    ∧ questionAnswerForDisplay extW (some "Q") none true true =
        .ok ("<div class=\"question\">"
          ++ (if true then "<strong>" ++ jsInterp (some "Q") ++ "</strong>" else "")
          ++ "<p>Not answered</p>" ++ "</div>") :=
  C7_unanswered_question_rendering extW (some "Q") none true rfl

set_option maxHeartbeats 2000000 in
/-- C4, counterexample: for an answer whose declared tag `other` is
unknown, the HTML renderer produces the inline marker but `answerToCSV`
performs no validation at all and passes the raw answer value through —
the CSV output is not an "unable to render" marker, contradicting the
claim that every renderer produces one. -/
theorem C4_csv_no_marker_counterexample :
    answerToHTML extW (.mk (some "other") (some (.str "raw")) none)
      = .ok unknownTypeMarker
    ∧ answerToCSV extW (some (.mk (some "other") (some (.str "raw")) none))
      = .ok (.s "raw")
    ∧ ("raw" ≠ unknownTypeMarker ∧ "raw" ≠ invalidAnswerMarker) := by
  refine ⟨rfl, rfl, by decide, by decide⟩

/-- C4, amended: a single bad answer never aborts HTML rendering — the
HTML renderer replaces an unknown-tag or schema-invalid answer with its
inline "unable to render" marker and every other question renders
exactly as it would alone (the per-question outputs concatenate
independently); the CSV renderer, however, performs no validation: an
unknown-tag answer is serialized as its raw scalar value rather than a
marker. -/
theorem C4_amended_bad_answer_isolated (ext : ExtFns) (display : DisplayOptions) :
    (∀ jt ja jc, tagKnown jt = false →
      answerToHTML ext (.mk jt ja jc) = .ok unknownTypeMarker)
    ∧ (∀ jt ja jc, tagKnown jt = true → schemaValid jt ja = false →
      answerToHTML ext (.mk jt ja jc) = .ok invalidAnswerMarker)
    ∧ (∀ (pre suf : List Question) (q0 : Question) (hpre hsuf h0 : String),
        questionsHTML ext display pre = .ok hpre →
        questionsHTML ext display suf = .ok hsuf →
        questionAnswerForDisplay ext q0.question_text q0.answer_json
          display.includeQuestionText display.includeUnansweredQuestions = .ok h0 →
        questionsHTML ext display (pre ++ q0 :: suf) = .ok (hpre ++ (h0 ++ hsuf)))
    ∧ (∀ t v jc, t ∉ ["textArea", "dateRange", "numberRange", "checkBoxes",
          "multiselectBox", "affiliationSearch", "table"] →
        answerToCSV ext (some (.mk (some t) (some (.str v)) jc)) = .ok (.s v)) := by
  refine ⟨?_, ?_, ?_, ?_⟩
  · intro jt ja jc h
    show (if tagKnown jt = false then .ok unknownTypeMarker
      else if schemaValid jt ja = false then .ok invalidAnswerMarker
      else answerToHTMLCore ext jt ja jc) = .ok unknownTypeMarker
    rw [h]
    simp
  · intro jt ja jc hk hs
    show (if tagKnown jt = false then .ok unknownTypeMarker
      else if schemaValid jt ja = false then .ok invalidAnswerMarker
      else answerToHTMLCore ext jt ja jc) = .ok invalidAnswerMarker
    rw [hk, hs]
    simp
  · intro pre suf q0 hpre hsuf h0 h1 h2 h3
    induction pre generalizing hpre with
    | nil =>
      simp only [questionsHTML] at h1
      cases h1
      simp [questionsHTML, h2, h3, Except.instMonad, Except.bind, Except.pure,
        Bind.bind, Pure.pure]
    | cons p pre ih =>
      simp only [questionsHTML, Except.instMonad, Bind.bind, Except.bind] at h1 ⊢
      cases hp : questionAnswerForDisplay ext p.question_text p.answer_json
          display.includeQuestionText display.includeUnansweredQuestions with
      | error e => rw [hp] at h1; exact absurd h1 (by simp)
      | ok hph =>
        rw [hp] at h1
        simp only at h1
        cases hq : questionsHTML ext display pre with
        | error e => rw [hq] at h1; exact absurd h1 (by simp)
        | ok hqt =>
          rw [hq] at h1
          simp only at h1
          cases h1
          simp only [List.append_eq]
          rw [ih hqt hq]
          simp [String.append_assoc]
  · intro t v jc h
    simp only [List.mem_cons, List.mem_singleton] at h
    push_neg at h
    obtain ⟨h1, h2, h3, h4, h5, h6, h7, -⟩ := h
    simp only [answerToCSV, Option.bind, AnswerJson.type, AnswerJson.answer]
    split
    · exact absurd (by injection (by assumption)) h1
    · exact absurd (by injection (by assumption)) h2
    · exact absurd (by injection (by assumption)) h3
    · exact absurd (by injection (by assumption)) h4
    · exact absurd (by injection (by assumption)) h5
    · exact absurd (by injection (by assumption)) h6
    · exact absurd (by injection (by assumption)) h7
    · simp [scalarOfPayload]


set_option maxHeartbeats 4000000 in
/-- Witness for C4's amended statement: a two-question plan whose second
answer has the unknown tag; the first question renders as it would
alone and the bad one contributes the marker div. -/
theorem C4_amended_bad_answer_isolated_witness :
    answerToHTML extW (.mk (some "other") (some (.str "bad")) none)
      = .ok unknownTypeMarker
    ∧ questionsHTML extW ⟨true, true, true, true, true, true⟩
        ([⟨some "Q1", some (.mk (some "text") (some (.str "fine")) none)⟩]
          ++ ⟨some "Q2", some (.mk (some "other") (some (.str "bad")) none)⟩ :: [])
      = .ok ("<div class=\"question\"><strong>Q1</strong><p>fine</p></div>"
          ++ (("<div class=\"question\"><strong>Q2</strong>" ++ unknownTypeMarker ++ "</div>") ++ ""))
    ∧ answerToCSV extW (some (.mk (some "other") (some (.str "bad")) none))
      = .ok (.s "bad") := by
  have h := C4_amended_bad_answer_isolated extW ⟨true, true, true, true, true, true⟩
  refine ⟨h.1 (some "other") (some (.str "bad")) none rfl, ?_, ?_⟩
  · exact h.2.2.1 [⟨some "Q1", some (.mk (some "text") (some (.str "fine")) none)⟩] []
      ⟨some "Q2", some (.mk (some "other") (some (.str "bad")) none)⟩
      "<div class=\"question\"><strong>Q1</strong><p>fine</p></div>" ""
      ("<div class=\"question\"><strong>Q2</strong>" ++ unknownTypeMarker ++ "</div>")
      rfl rfl rfl
  · exact h.2.2.2 "other" "bad" none (by decide)

/-- A display-options record with every toggle enabled. -/
def allOn : DisplayOptions := ⟨true, true, true, true, true, true⟩

/-- A `dmp` body with no narrative at all. -/
def noNarrativeBody : DmpBody := ⟨none, none, none, none, none, none, none, none⟩

/-- C8, counterexample: when the narrative (or its `sections` array) is
absent entirely, `renderCSV` pushes no column names at all — the output
is a single empty record, not a header row of the enabled columns
(`Section,Question,Answer` under all-enabled options). -/
theorem C8_absent_narrative_counterexample :
    renderCSV extW allOn noNarrativeBody = .ok "\n"
    ∧ ("\n" : String) ≠ "Section,Question,Answer\n" := by
  refine ⟨rfl, by decide⟩

/-- Sections with no questions contribute no CSV rows. -/
theorem sectionRows_mapM_empty (ext : ExtFns) (display : DisplayOptions) :
    ∀ (secs : List Section),
    (∀ s ∈ secs, s.questions = none ∨ s.questions = some []) →
    secs.mapM (sectionRows ext display) = .ok (secs.map fun _ => []) := by
  intro secs
  induction secs with
  | nil => intro _; rfl
  | cons s rest ih =>
    intro hq
    have hrow : sectionRows ext display s = .ok [] := by
      rcases hq s (by simp) with h | h
      · simp [sectionRows, h]
      · simp only [sectionRows, h]
        rw [List.mapM_nil]
        rfl
    rw [List.mapM_cons, hrow, ih (fun x hx => hq x (by simp [hx]))]
    rfl

/-- Flattening all-empty row groups gives no rows. -/
theorem flatten_map_nil (secs : List Section) :
    ((secs.map fun _ => ([] : List (List Scalar)))).flatten = [] := by
  induction secs with
  | nil => rfl
  | cons s rest ih => simp [ih]

/-- C8, amended: when the narrative's `sections` array is present but
holds no questions (sections whose question lists are absent or empty,
or no sections at all in the array), `renderCSV` emits exactly one
header row made of the enabled columns (Section iff
`includeSectionHeadings`, Question iff `includeQuestionText`, always
Answer) and zero data rows; when the `sections` array itself is absent
the output is a single empty record with no header. -/
theorem C8_amended_header_only (ext : ExtFns) (display : DisplayOptions)
    (data : DmpBody) (secs : List Section)
    (hs : data.dmproadmap_narrative.bind Narrative.sections = some secs)
    (hq : ∀ s ∈ secs, s.questions = none ∨ s.questions = some []) :
    renderCSV ext display data
      = .ok (csvLine ((if display.includeSectionHeadings then ["Section"] else [])
          ++ (if display.includeQuestionText then ["Question"] else [])
          ++ ["Answer"]) ++ "\n") := by
  simp only [renderCSV, hs, sectionRows_mapM_empty ext display secs hq,
    Except.instMonad, Bind.bind, Except.bind]
  simp only [flatten_map_nil]
  simp only [stringifyCSV, List.map_nil, List.map_cons, String.join, List.foldl]
  simp [Pure.pure, Except.pure]

/-- Witness for C8's amended statement: one empty section under
all-enabled options gives just the `Section,Question,Answer` header. -/
theorem C8_amended_header_only_witness :
    renderCSV extW allOn
      ⟨none, none, none, none, none, none, some ⟨some [⟨some "S", some []⟩]⟩, none⟩
      = .ok (csvLine ((if allOn.includeSectionHeadings then ["Section"] else [])
          ++ (if allOn.includeQuestionText then ["Question"] else [])
          ++ ["Answer"]) ++ "\n") := by
  exact C8_amended_header_only extW allOn
    ⟨none, none, none, none, none, none, some ⟨some [⟨some "S", some []⟩]⟩, none⟩
    [⟨some "S", some []⟩] rfl (by intro s hs; simp at hs; subst hs; right; rfl)


/-- `typeLabel[0].toUpperCase() + typeLabel.slice(1)` as a total function
(the empty case never arises under the nonempty-label hypothesis). -/
def capFirst (s : String) : String :=
  match s.data with
  | [] => ""
  | c :: rest => String.mk (c.toUpper :: rest)

/-- The always-pluralized group label the code actually produces:
capitalize ∘ pluralize ∘ humanize, with no singleton exception. -/
def groupLabelAlways (ext : ExtFns) (t : String) : String :=
  capFirst (ext.pluralize (underscoresToSpaces t))

/-- The `<li>` group entry for one work type, spelled out: the
always-pluralized label and the matching works in original order. -/
def groupEntrySpec (ext : ExtFns) (works : List RelatedWork) (t : String) : String :=
  "<li><strong>" ++ groupLabelAlways ext t ++ "</strong><ul>"
    ++ String.join (((works.filter fun w => w.work_type.contains t).map workText).map
        fun x => "<li>" ++ x ++ "</li>") ++ "</ul></li>"

/-- A string whose character list is empty is the empty string. -/
theorem eq_empty_of_data_nil (s : String) (h : s.data = []) : s = "" := by
  cases s with
  | mk data =>
    simp only at h
    subst h
    rfl

/-- Folding string concatenation never shrinks the accumulator. -/
theorem foldl_append_length_ge (l : List String) :
    ∀ init : String, init.length ≤ (l.foldl (fun a b => a ++ b) init).length := by
  induction l with
  | nil => intro init; exact le_refl _
  | cons a rest ih =>
    intro init
    calc init.length ≤ (init ++ a).length := by simp [String.length_append]
    _ ≤ _ := ih (init ++ a)

/-- A joined list of `<li>` items is never the empty string. -/
theorem join_li_ne_empty (x : String) (rest : List String) :
    String.join (("<li>" ++ x ++ "</li>") :: rest) ≠ "" := by
  rw [string_ne_empty_iff_length_pos]
  have h := foldl_append_length_ge rest ("" ++ ("<li>" ++ x ++ "</li>"))
  have h2 : 0 < ("" ++ ("<li>" ++ x ++ "</li>")).length := by
    simp only [String.length_append]
    have : 0 < "<li>".length := by decide
    omega
  exact Nat.lt_of_lt_of_le h2 h

/-- `dedupFirstAux` only returns elements of its input. -/
theorem dedupFirstAux_subset :
    ∀ (xs seen : List String) (t : String), t ∈ dedupFirstAux seen xs → t ∈ xs := by
  intro xs
  induction xs with
  | nil => intro seen t h; exact absurd h (by simp [dedupFirstAux])
  | cons x rest ih =>
    intro seen t h
    simp only [dedupFirstAux] at h
    by_cases hc : seen.contains x
    · rw [if_pos hc] at h
      exact List.mem_cons_of_mem x (ih seen t h)
    · rw [if_neg hc] at h
      rcases List.mem_cons.mp h with h | h
      · subst h
        exact List.mem_cons_self t rest
      · exact List.mem_cons_of_mem x (ih (x :: seen) t h)

/-- `groupEntry` at a type that some work carries, with a nonempty
pluralized label, produces exactly the spelled-out group entry. -/
theorem groupEntry_of_mem (ext : ExtFns) (works : List RelatedWork) (t : String)
    (hw : ∃ w ∈ works, t ∈ w.work_type)
    (hp : ext.pluralize (underscoresToSpaces t) ≠ "") :
    groupEntry ext works t = .ok (some (groupEntrySpec ext works t)) := by
  obtain ⟨w, hwin, hwt⟩ := hw
  have hwf : w ∈ works.filter fun w => w.work_type.contains t := by
    rw [List.mem_filter]
    exact ⟨hwin, List.elem_eq_true_of_mem hwt⟩
  have hne : (works.filter fun w => w.work_type.contains t) ≠ [] :=
    List.ne_nil_of_mem hwf
  cases hf : works.filter fun w => w.work_type.contains t with
  | nil => exact absurd hf hne
  | cons a l =>
    have hout : (works.filter fun w => w.work_type.contains t).map workText
        = workText a :: l.map workText := by rw [hf, List.map_cons]
    have hrw : relatedWorksForType t works =
        some (String.join (("<li>" ++ workText a ++ "</li>") ::
          (l.map workText).map fun x => "<li>" ++ x ++ "</li>")) := by
      unfold relatedWorksForType
      rw [hout]
      rfl
    have hjoin := join_li_ne_empty (workText a)
      ((l.map workText).map fun x => "<li>" ++ x ++ "</li>")
    obtain ⟨c, rest, hcr⟩ :
        ∃ c rest, (ext.pluralize (underscoresToSpaces t)).data = c :: rest := by
      cases hd : (ext.pluralize (underscoresToSpaces t)).data with
      | nil => exact absurd (eq_empty_of_data_nil _ hd) hp
      | cons c rest => exact ⟨c, rest, rfl⟩
    have hlabel : workTypeForDisplay ext t true = .ok (groupLabelAlways ext t) := by
      unfold workTypeForDisplay
      simp only [if_true, if_pos]
      rw [hcr]
      simp [groupLabelAlways, capFirst, hcr]
    have htru : strTruthy (some (String.join (("<li>" ++ workText a ++ "</li>") ::
        (l.map workText).map fun x => "<li>" ++ x ++ "</li>"))) = true := by
      simp only [strTruthy, decide_eq_true_eq]
      exact hjoin
    simp only [groupEntry, hrw, htru, if_true, Option.getD_some, Except.instMonad,
      Bind.bind, Except.bind]
    rw [hlabel]
    simp only [Pure.pure, Except.pure]
    simp only [groupEntrySpec, hout, List.map_cons]


/-- For a list of types each carried by some work and with nonempty
pluralized labels, the per-type loop yields exactly the spelled-out
entries. -/
theorem mapM_groupEntry (ext : ExtFns) (works : List RelatedWork) :
    ∀ ts : List String,
    (∀ t ∈ ts, (∃ w ∈ works, t ∈ w.work_type)
      ∧ ext.pluralize (underscoresToSpaces t) ≠ "") →
    ts.mapM (groupEntry ext works)
      = .ok (ts.map fun t => some (groupEntrySpec ext works t)) := by
  intro ts
  induction ts with
  | nil => intro _; rfl
  | cons t rest ih =>
    intro h
    rw [List.mapM_cons, groupEntry_of_mem ext works t (h t (by simp)).1 (h t (by simp)).2,
      ih (fun x hx => h x (by simp [hx]))]
    rfl

/-- `reduceOption` undoes a `map some`. -/
theorem reduceOption_map_some (l : List String) (f : String → String) :
    (l.map fun t => some (f t)).reduceOption = l.map f := by
  induction l with
  | nil => rfl
  | cons a rest ih => simp [List.reduceOption_cons_of_some, ih]

/-- C9, amended: in the related-works appendix, works are grouped by
work type preserving first-seen order of the distinct types, and every
group's label is humanized (underscores to spaces, capitalized) and
pluralized unconditionally — a group holding exactly one item is
pluralized too (the code calls `workTypeForDisplay` with its default
`pluralizeIt = true` regardless of group size). -/
theorem C9_amended_always_pluralized (ext : ExtFns) (works : List RelatedWork)
    (hne : works ≠ [])
    (hlab : ∀ t ∈ (works.map RelatedWork.work_type).flatten,
      ext.pluralize (underscoresToSpaces t) ≠ "") :
    relatedWorksByType ext works
      = .ok (
        if (dedupFirst ((works.map RelatedWork.work_type).flatten)).isEmpty then
          "None specified"
        else "<ul>" ++ String.join
          ((dedupFirst ((works.map RelatedWork.work_type).flatten)).map
            (groupEntrySpec ext works)) ++ "</ul>") := by
  have hcond : ¬ works.length < 1 := by
    cases works with
    | nil => exact absurd rfl hne
    | cons a l => simp
  have hts : ∀ t ∈ dedupFirst ((works.map RelatedWork.work_type).flatten),
      (∃ w ∈ works, t ∈ w.work_type) ∧ ext.pluralize (underscoresToSpaces t) ≠ "" := by
    intro t ht
    have hmem : t ∈ (works.map RelatedWork.work_type).flatten :=
      dedupFirstAux_subset _ [] t ht
    refine ⟨?_, hlab t hmem⟩
    rw [List.mem_flatten] at hmem
    obtain ⟨l, hl, htl⟩ := hmem
    rw [List.mem_map] at hl
    obtain ⟨w, hw, hwl⟩ := hl
    exact ⟨w, hw, hwl ▸ htl⟩
  simp only [relatedWorksByType, if_neg hcond, Except.instMonad, Bind.bind, Except.bind]
  rw [mapM_groupEntry ext works _ hts]
  simp only [reduceOption_map_some]
  cases hd : dedupFirst ((works.map RelatedWork.work_type).flatten) with
  | nil => rfl
  | cons t rest =>
    simp [Pure.pure, Except.pure]

/-- A related work carrying one type, no citation, and an identifier. -/
def singleWork : RelatedWork := ⟨["journal_article"], none, some "https://x"⟩

set_option maxHeartbeats 2000000 in
/-- C9, counterexample: a group holding exactly one related work is
still labeled with the plural ("Journal articles"), not the singular
label the claim requires for singleton groups. -/
theorem C9_singleton_pluralized_counterexample :
    relatedWorksByType extW [singleWork]
      = .ok ("<ul><li><strong>Journal articles</strong><ul><li><a href=\"https://x\" target=\"_blank\">https://x</a></li></ul></li></ul>")
    ∧ ("<ul><li><strong>Journal articles</strong><ul><li><a href=\"https://x\" target=\"_blank\">https://x</a></li></ul></li></ul>" : String)
      ≠ "<ul><li><strong>Journal article</strong><ul><li><a href=\"https://x\" target=\"_blank\">https://x</a></li></ul></li></ul>" := by
  refine ⟨rfl, by decide⟩

/-- Witness for C9's amended statement at the singleton-group input. -/
theorem C9_amended_always_pluralized_witness :
    relatedWorksByType extW [singleWork]
      = .ok (
        if (dedupFirst (([singleWork].map RelatedWork.work_type).flatten)).isEmpty then
          "None specified"
        else "<ul>" ++ String.join
          ((dedupFirst (([singleWork].map RelatedWork.work_type).flatten)).map
            (groupEntrySpec extW [singleWork])) ++ "</ul>") := by
  refine C9_amended_always_pluralized extW [singleWork] (by simp) ?_
  intro t ht
  simp [singleWork] at ht
  subst ht
  decide


theorem reconcile_fresh (rdsDate : String) (cached generated : Option MaDMP)
    (h : (cached.isNone || (some rdsDate != (cached.bind MaDMP.dmp).bind DmpBody.modified)) = false) :
    reconcile rdsDate cached generated = ([], cached) := by
  simp only [reconcile, h]
  rfl

theorem reconcile_stale (rdsDate : String) (cached generated : Option MaDMP)
    (h : (cached.isNone || (some rdsDate != (cached.bind MaDMP.dmp).bind DmpBody.modified)) = true) :
    reconcile rdsDate cached generated
      = handleMissingMaDMP generated
          (some rdsDate != (cached.bind MaDMP.dmp).bind DmpBody.modified) := by
  simp only [reconcile, h]
  rfl

theorem cacheAfter_persist (i : Option MaDMP) (m : MaDMP) (f : Bool) :
    cacheAfter i ([.loadPlanRDS, .loadUserPlansRDS, .cacheRead]
      ++ [.rebuildFromRDS, persistEffect m f]) = some m := by
  cases f <;> rfl

theorem handler_fresh_ok (convert : String → String) (w : World) (p : PlanRec) (m : MaDMP)
    (hp : w.plan = some p)
    (hm : w.cached = some m)
    (hmod : (m.dmp.bind DmpBody.modified) = some (convert p.modified))
    (hperm : hasPermissionToDownloadNarrative m w.userPlans w.token = .ok true) :
    narrativeHandler convert w
      = ⟨[.loadPlanRDS, .loadUserPlansRDS, .cacheRead], 200, "", some m⟩ := by
  have hdmp : m.dmp.isNone = false := by
    cases hd : m.dmp with
    | none => rw [hd] at hmod; exact absurd hmod (by simp)
    | some d => rfl
  have hcond : (((some m : Option MaDMP)).isNone
      || (some (convert p.modified) != ((some m : Option MaDMP).bind MaDMP.dmp).bind DmpBody.modified)) = false := by
    simp [hmod]
  simp only [narrativeHandler, hp, hm]
  rw [reconcile_fresh _ _ _ hcond]
  simp only [hdmp, hperm]
  rfl


theorem handler_stale_ok (convert : String → String) (w : World) (p : PlanRec) (g : MaDMP)
    (d : DmpBody)
    (hp : w.plan = some p)
    (hcond : (w.cached.isNone
      || (some (convert p.modified) != (w.cached.bind MaDMP.dmp).bind DmpBody.modified)) = true)
    (hg : w.generated = some g)
    (hgd : g.dmp = some d)
    (hperm : hasPermissionToDownloadNarrative g w.userPlans w.token = .ok true) :
    narrativeHandler convert w
      = ⟨[.loadPlanRDS, .loadUserPlansRDS, .cacheRead]
          ++ [.rebuildFromRDS, persistEffect g
              (some (convert p.modified) != (w.cached.bind MaDMP.dmp).bind DmpBody.modified)],
         200, "", some g⟩ := by
  have hsome : g.dmp.isSome = true := by rw [hgd]; rfl
  have hnone : g.dmp.isNone = false := by rw [hgd]; rfl
  simp only [narrativeHandler, hp]
  rw [reconcile_stale _ _ _ hcond]
  simp only [handleMissingMaDMP, hg, hsome, if_true, hnone, hperm]
  rfl

set_option maxHeartbeats 1000000 in
/-- C6: Resolve is idempotent when the source of record is unchanged —
after a successful request, running the handler again against the
unchanged source of record (with the cache as the first run left it)
serves the identical maDMP record, succeeds with 200, and performs zero
additional cache writes; the fresh cached copy is returned unchanged
without regeneration. The hypothesis `hgen` reflects the external
rebuild contract (spec §4.4/§8: the freshly built model carries the
source-of-record timestamp). -/
theorem C6_resolve_idempotent (convert : String → String) (w : World)
    (hgen : ∀ g, w.generated = some g → ∀ p, w.plan = some p →
      g.dmp.bind DmpBody.modified = some (convert p.modified))
    (h200 : (narrativeHandler convert w).status = 200) :
    (narrativeHandler convert
        { w with cached := cacheAfter w.cached (narrativeHandler convert w).effects }).served
      = (narrativeHandler convert w).served
    ∧ (narrativeHandler convert
        { w with cached := cacheAfter w.cached (narrativeHandler convert w).effects }).status = 200
    ∧ ((narrativeHandler convert
        { w with cached := cacheAfter w.cached (narrativeHandler convert w).effects }).effects.filter
          Effect.isCacheWrite) = [] := by
  cases hp : w.plan with
  | none =>
    rw [show (narrativeHandler convert w).status = 404 from by
      simp [narrativeHandler, hp]] at h200
    exact absurd h200 (by decide)
  | some p =>
    by_cases hc : (w.cached.isNone
        || (some (convert p.modified) != (w.cached.bind MaDMP.dmp).bind DmpBody.modified)) = true
    · -- Stale-or-Missing: the handler regenerated and persisted.
      cases hg : w.generated with
      | none =>
        rw [show (narrativeHandler convert w).status = 500 from by
          simp only [narrativeHandler, hp]
          rw [reconcile_stale _ _ _ hc]
          simp only [handleMissingMaDMP, hg]] at h200
        exact absurd h200 (by decide)
      | some g =>
        have hgmod := hgen g hg p hp
        cases hgd : g.dmp with
        | none => rw [hgd] at hgmod; exact absurd hgmod (by simp)
        | some d =>
          have hsome : g.dmp.isSome = true := by rw [hgd]; rfl
          have hnone : g.dmp.isNone = false := by rw [hgd]; rfl
          cases hperm : hasPermissionToDownloadNarrative g w.userPlans w.token with
          | error e =>
            rw [show (narrativeHandler convert w).status = 500 from by
              simp only [narrativeHandler, hp]
              rw [reconcile_stale _ _ _ hc]
              simp only [handleMissingMaDMP, hg, hsome, if_true, hnone, hperm]
              rfl] at h200
            exact absurd h200 (by decide)
          | ok b =>
            cases b with
            | false =>
              rw [show (narrativeHandler convert w).status = 404 from by
                simp only [narrativeHandler, hp]
                rw [reconcile_stale _ _ _ hc]
                simp only [handleMissingMaDMP, hg, hsome, if_true, hnone, hperm]
                rfl] at h200
              exact absurd h200 (by decide)
            | true =>
              have hr1 := handler_stale_ok convert w p g d hp hc hg hgd hperm
              have heff : (narrativeHandler convert w).effects
                  = [.loadPlanRDS, .loadUserPlansRDS, .cacheRead]
                    ++ [.rebuildFromRDS, persistEffect g
                        (some (convert p.modified)
                          != (w.cached.bind MaDMP.dmp).bind DmpBody.modified)] := by
                rw [hr1]
              have hserved : (narrativeHandler convert w).served = some g := by rw [hr1]
              have hca : cacheAfter w.cached
                  ([.loadPlanRDS, .loadUserPlansRDS, .cacheRead]
                    ++ [.rebuildFromRDS, persistEffect g
                        (some (convert p.modified) != (w.cached.bind MaDMP.dmp).bind DmpBody.modified)])
                  = some g := cacheAfter_persist _ _ _
              have hr2 := handler_fresh_ok convert
                (⟨some p, w.userPlans, w.token,
                  cacheAfter w.cached
                    ([Effect.loadPlanRDS, Effect.loadUserPlansRDS, Effect.cacheRead]
                      ++ [Effect.rebuildFromRDS, persistEffect g
                          (some (convert p.modified)
                            != (w.cached.bind MaDMP.dmp).bind DmpBody.modified)]),
                  some g⟩ : World)
                p g rfl (by simpa using hca) hgmod hperm
              rw [heff, hserved]
              rw [hr2]
              exact ⟨rfl, rfl, rfl⟩
    · -- Fresh: the cached copy matches the source-of-record timestamp.
      have hcf : (w.cached.isNone
          || (some (convert p.modified) != (w.cached.bind MaDMP.dmp).bind DmpBody.modified)) = false := by
        cases hx : (w.cached.isNone
            || (some (convert p.modified) != (w.cached.bind MaDMP.dmp).bind DmpBody.modified)) with
        | false => rfl
        | true => exact absurd hx hc
      have hnone : w.cached.isNone = false := by
        cases hx : w.cached.isNone with
        | false => rfl
        | true => rw [hx] at hcf; exact absurd hcf (by simp)
      have hb : (some (convert p.modified)
          != (w.cached.bind MaDMP.dmp).bind DmpBody.modified) = false := by
        rw [hnone] at hcf
        simpa using hcf
      have hmodeq : (w.cached.bind MaDMP.dmp).bind DmpBody.modified
          = some (convert p.modified) := by
        have := bne_eq_false_iff_eq.mp hb
        exact this.symm
      cases hm : w.cached with
      | none => rw [hm] at hnone; exact absurd hnone (by simp)
      | some m =>
        have hmmod : m.dmp.bind DmpBody.modified = some (convert p.modified) := by
          rw [hm] at hmodeq
          simpa using hmodeq
        have hdnone : m.dmp.isNone = false := by
          cases hd : m.dmp with
          | none => rw [hd] at hmmod; exact absurd hmmod (by simp)
          | some d => rfl
        have hcond : (((some m : Option MaDMP)).isNone
            || (some (convert p.modified)
              != ((some m : Option MaDMP).bind MaDMP.dmp).bind DmpBody.modified)) = false := by
          simp [hmmod]
        cases hperm : hasPermissionToDownloadNarrative m w.userPlans w.token with
        | error e =>
          rw [show (narrativeHandler convert w).status = 500 from by
            simp only [narrativeHandler, hp, hm]
            rw [reconcile_fresh _ _ _ hcond]
            simp only [hdnone, hperm]
            rfl] at h200
          exact absurd h200 (by decide)
        | ok b =>
          cases b with
          | false =>
            rw [show (narrativeHandler convert w).status = 404 from by
              simp only [narrativeHandler, hp, hm]
              rw [reconcile_fresh _ _ _ hcond]
              simp only [hdnone, hperm]
              rfl] at h200
            exact absurd h200 (by decide)
          | true =>
            have hr1 := handler_fresh_ok convert w p m hp hm hmmod hperm
            have heff : (narrativeHandler convert w).effects
                = [.loadPlanRDS, .loadUserPlansRDS, .cacheRead] := by rw [hr1]
            have hw2 : (⟨some p, w.userPlans, w.token,
                cacheAfter (some m)
                  [Effect.loadPlanRDS, Effect.loadUserPlansRDS, Effect.cacheRead],
                w.generated⟩ : World) = w := by
              rw [show cacheAfter (some m)
                  [Effect.loadPlanRDS, Effect.loadUserPlansRDS, Effect.cacheRead]
                  = some m from rfl]
              rw [← hp, ← hm]
            rw [heff, hw2, hr1]
            exact ⟨rfl, rfl, rfl⟩

/-- Witness for C6 at the concrete missing-cache world: the first run
regenerates and persists; the second run is fresh and writes nothing. -/
theorem C6_resolve_idempotent_witness :
    (narrativeHandler id
        { wMissingCache with
          cached := cacheAfter wMissingCache.cached
            (narrativeHandler id wMissingCache).effects }).served
      = (narrativeHandler id wMissingCache).served
    ∧ (narrativeHandler id
        { wMissingCache with
          cached := cacheAfter wMissingCache.cached
            (narrativeHandler id wMissingCache).effects }).status = 200
    ∧ ((narrativeHandler id
        { wMissingCache with
          cached := cacheAfter wMissingCache.cached
            (narrativeHandler id wMissingCache).effects }).effects.filter
          Effect.isCacheWrite) = [] := by
  refine C6_resolve_idempotent id wMissingCache ?_ rfl
  intro g hg p hp
  simp only [wMissingCache] at hg hp
  cases hg
  cases hp
  rfl

end NarrativeGen
